import Mathlib

/-!
A shallow embedding of the MQTT client facade implemented in
src/mosquitto.h and src/mosquitto.cpp (class MqttClient).

The external mosquitto engine is treated as an oracle: each engine entry
point the facade calls receives, as an explicit argument, the return code
(or, for mosquitto_new, the success of handle creation) that the engine
produces for that call, and every facade operation additionally returns
the list of engine requests it issued, so that properties about which
requests are made, in which order, and with which fixed parameters can be
stated and proved.

The subscription registry is a static data member in the source
(MqttClient::mSubscriptionHandlers, src/mosquitto.cpp line 57), i.e.
process-wide state shared by every instance; it is therefore modelled as a
separate ProcessState record that every member function takes and returns,
independently of the instance it is invoked on.  Handler values
(std::function callbacks) are drawn from an arbitrary type H, with `none`
standing for an empty std::function; invoking a handler is recorded as a
(handler, topic, payload) triple rather than executed.
-/

namespace Mqtt

/-- mosquitto error codes, as returned by the engine entry points. -/
abbrev ErrorCode := Int

/-- MOSQ_ERR_SUCCESS from mosquitto.h: the success code, 0. -/
def MOSQ_ERR_SUCCESS : ErrorCode := 0

/-- MQTT_PROTOCOL_V311 from mosquitto.h: the constant selecting MQTT
protocol version 3.1.1 (numeric value 4 in the mosquitto headers). -/
def MQTT_PROTOCOL_V311 : Int := 4

/-- kCertificatesFolder (src/mosquitto.cpp line 47). -/
def kCertificatesFolder : String := "certificates"

/-- kCaCertificateFile (src/mosquitto.cpp line 48). -/
def kCaCertificateFile : String := kCertificatesFolder ++ "/ca.crt"

/-- kClientCertificateFile (src/mosquitto.cpp line 49). -/
def kClientCertificateFile : String := kCertificatesFolder ++ "/client01.crt"

/-- kClientKeyFile (src/mosquitto.cpp line 50). -/
def kClientKeyFile : String := kCertificatesFolder ++ "/client01.key"

/-- kKeepaliveSec (src/mosquitto.cpp line 51). -/
def kKeepaliveSec : Int := 60

/-- kQoS (src/mosquitto.cpp line 52): the fixed delivery-guarantee level,
QoS 1 ("at least once"), used for every publish and subscribe. -/
def kQoS : Int := 1

/-- CallbackType: a std::function handler callable with (topic, payload).
Handler identities are drawn from `H`; `none` models an empty
std::function (the `nullptr == it->second` test in messageCallback). -/
abbrev CallbackType (H : Type) := Option H

/-- MqttClient::SubscriptionTable, std::unordered_map<std::string,
CallbackType>, modelled as an association list with at most one live
binding per key (lookup returns the first binding; assignment through
operator[] updates an existing binding in place or appends a new one). -/
abbrev SubscriptionTable (H : Type) := List (String × CallbackType H)

/-- unordered_map::find, returning the mapped value when the key is
present. -/
def tableFind {H : Type} : SubscriptionTable H → String → Option (CallbackType H)
  | [], _ => none
  | (k, v) :: rest, key => if k = key then some v else tableFind rest key

/-- unordered_map::operator[] followed by assignment
(`mSubscriptionHandlers[topic] = callback`): replaces the binding of an
existing key, otherwise appends a fresh binding. -/
def tableInsert {H : Type} : SubscriptionTable H → String → CallbackType H → SubscriptionTable H
  | [], key, v => [(key, v)]
  | (k, w) :: rest, key, v =>
      if k = key then (key, v) :: rest else (k, w) :: tableInsert rest key v

/-- The list of topics currently bound in a subscription table. -/
def registryTopics {H : Type} : SubscriptionTable H → List String
  | [] => []
  | (k, _) :: rest => k :: registryTopics rest

/-- One request issued to the mosquitto engine.  Each constructor mirrors
one engine entry point the facade can call; calls that take the client
handle record whether the handle passed was null (`handleNull`).
`handleDestroy` mirrors mosquitto_destroy, the engine's routine for
freeing a client handle. -/
inductive EngineCall where
  | libInit
  | newHandle (deviceId : String) (cleanSession : Bool)
  | connectCallbackSet (handleNull : Bool)
  | publishCallbackSet (handleNull : Bool)
  | subscribeCallbackSet (handleNull : Bool)
  | messageCallbackSet (handleNull : Bool)
  | usernamePwSet (handleNull : Bool) (username password : String)
  | tlsSet (handleNull : Bool) (cafile capath certfile keyfile : String)
  | protocolVersionSet (handleNull : Bool) (version : Int)
  | connectAsync (handleNull : Bool) (host : String) (port : Nat) (keepalive : Int)
  | loopStart (handleNull : Bool)
  | disconnectReq (handleNull : Bool)
  | publishReq (handleNull : Bool) (topic : String) (payloadlen : Nat)
      (payload : String) (qos : Int) (retain : Bool)
  | subscribeReq (handleNull : Bool) (topic : String) (qos : Int)
  | handleDestroy (handleNull : Bool)
  | libCleanup
deriving DecidableEq

/-- Recognizes the mosquitto_connect_async request. -/
def isConnectAsync : EngineCall → Bool
  | .connectAsync _ _ _ _ => true
  | _ => false

/-- Recognizes the mosquitto_loop_start request. -/
def isLoopStart : EngineCall → Bool
  | .loopStart _ => true
  | _ => false

/-- The handle-null flag of an engine request, for the requests that pass
the client handle to the engine; `none` for the requests that take no
handle (library init and cleanup, and handle creation itself). -/
def handleArg : EngineCall → Option Bool
  | .libInit => none
  | .newHandle _ _ => none
  | .libCleanup => none
  | .connectCallbackSet b => some b
  | .publishCallbackSet b => some b
  | .subscribeCallbackSet b => some b
  | .messageCallbackSet b => some b
  | .usernamePwSet b _ _ => some b
  | .tlsSet b _ _ _ _ => some b
  | .protocolVersionSet b _ => some b
  | .connectAsync b _ _ _ => some b
  | .loopStart b => some b
  | .disconnectReq b => some b
  | .publishReq b _ _ _ _ _ => some b
  | .subscribeReq b _ _ => some b
  | .handleDestroy b => some b

/-- The instance state of one MqttClient facade: the engine handle pointer
mMosquitoLibHandler (src/mosquitto.h line 28), with `none` for nullptr. -/
structure MqttClient where
  mMosquitoLibHandler : Option Unit
deriving DecidableEq

/-- Whether the instance's stored engine handle is the null pointer. -/
def handleNull (st : MqttClient) : Bool :=
  st.mMosquitoLibHandler.isNone

/-- The process-wide static state: MqttClient::mSubscriptionHandlers
(src/mosquitto.cpp line 57), shared by every facade instance. -/
structure ProcessState (H : Type) where
  mSubscriptionHandlers : SubscriptionTable H
deriving DecidableEq

/-- An inbound mosquitto_message, restricted to the fields the facade
reads: the topic and the payload (read back as a character string). -/
structure MosquittoMessage where
  topic : String
  payload : String
deriving DecidableEq

/-- MqttClient::MqttClient (src/mosquitto.cpp lines 59-75).  `initRc` is
the code mosquitto_lib_init returns and `initErrStr` the diagnostic
mosquitto_strerror gives for it; `handleCreated` tells whether
mosquitto_new returns a non-null handle (its result is never checked by
the source).  Throwing std::runtime_error is modelled as Except.error
carrying the thrown message; on the non-throwing path the constructor
creates the handle bound to deviceId with clean session disabled, sets the
four callbacks and the username/password, and completes. -/
def MqttClient.constructor (initRc : ErrorCode) (initErrStr : String) (handleCreated : Bool)
    (deviceId username password : String) :
    Except String MqttClient × List EngineCall :=
  if initRc ≠ MOSQ_ERR_SUCCESS then
    (Except.error ("Error while initializing MOSQUITTO library: " ++ initErrStr),
     [EngineCall.libInit])
  else
    let hNull := !handleCreated
    (Except.ok { mMosquitoLibHandler := if handleCreated then some () else none },
     [EngineCall.libInit, EngineCall.newHandle deviceId false,
      EngineCall.connectCallbackSet hNull, EngineCall.publishCallbackSet hNull,
      EngineCall.subscribeCallbackSet hNull, EngineCall.messageCallbackSet hNull,
      EngineCall.usernamePwSet hNull username password])

/-- MqttClient::setupOptions (src/mosquitto.cpp lines 153-183).
`caFileExists` models the `infile.good()` test on kCaCertificateFile: the
source only closes the stream again (its warning is commented out), so the
test has no effect on the result.  `tlsRc` and `optsRc` are the codes
mosquitto_tls_set and mosquitto_opts_set return. -/
def setupOptions {H : Type} (st : MqttClient) (_ps : ProcessState H) (caFileExists : Bool)
    (tlsRc optsRc : ErrorCode) : ErrorCode × List EngineCall :=
  let _infileGood := caFileExists
  let hNull := handleNull st
  let tr := [EngineCall.tlsSet hNull kCaCertificateFile kCertificatesFolder
              kClientCertificateFile kClientKeyFile]
  if tlsRc ≠ MOSQ_ERR_SUCCESS then (tlsRc, tr)
  else
    let tr := tr ++ [EngineCall.protocolVersionSet hNull MQTT_PROTOCOL_V311]
    if optsRc ≠ MOSQ_ERR_SUCCESS then (optsRc, tr) else (optsRc, tr)

/-- MqttClient::connect (src/mosquitto.cpp lines 83-106).  `connRc` and
`loopRc` are the codes mosquitto_connect_async and mosquitto_loop_start
return.  The body never touches the subscription registry, so the process
state is returned unchanged. -/
def MqttClient.connect {H : Type} (st : MqttClient) (ps : ProcessState H) (caFileExists : Bool)
    (tlsRc optsRc connRc loopRc : ErrorCode) (host : String) (port : Nat) :
    Bool × ProcessState H × List EngineCall :=
  let so := setupOptions st ps caFileExists tlsRc optsRc
  if so.1 ≠ MOSQ_ERR_SUCCESS then (false, ps, so.2)
  else
    let hNull := handleNull st
    let tr := so.2 ++ [EngineCall.connectAsync hNull host port kKeepaliveSec]
    if connRc ≠ MOSQ_ERR_SUCCESS then (false, ps, tr)
    else
      let tr := tr ++ [EngineCall.loopStart hNull]
      if loopRc ≠ MOSQ_ERR_SUCCESS then (false, ps, tr) else (true, ps, tr)

/-- MqttClient::disconnect (src/mosquitto.cpp lines 108-117).  `discRc` is
the code mosquitto_disconnect returns. -/
def MqttClient.disconnect {H : Type} (st : MqttClient) (ps : ProcessState H)
    (discRc : ErrorCode) : Bool × ProcessState H × List EngineCall :=
  let tr := [EngineCall.disconnectReq (handleNull st)]
  if discRc ≠ MOSQ_ERR_SUCCESS then (false, ps, tr) else (true, ps, tr)

/-- MqttClient::send (src/mosquitto.cpp lines 119-131).  `pubRc` is the
code mosquitto_publish returns; the publish request carries the payload,
its byte length, the fixed QoS and the retain flag set to true. -/
def MqttClient.send {H : Type} (st : MqttClient) (ps : ProcessState H) (pubRc : ErrorCode)
    (topic message : String) : Bool × ProcessState H × List EngineCall :=
  let tr := [EngineCall.publishReq (handleNull st) topic message.utf8ByteSize message kQoS true]
  if pubRc ≠ MOSQ_ERR_SUCCESS then (false, ps, tr) else (true, ps, tr)

/-- MqttClient::subscribe (src/mosquitto.cpp lines 133-145).  `subRc` is
the code mosquitto_subscribe returns; on engine failure nothing is
registered, on engine success the handler is stored in the static
registry under the topic. -/
def MqttClient.subscribe {H : Type} (st : MqttClient) (ps : ProcessState H) (subRc : ErrorCode)
    (topic : String) (callback : CallbackType H) :
    Bool × ProcessState H × List EngineCall :=
  let tr := [EngineCall.subscribeReq (handleNull st) topic kQoS]
  if subRc ≠ MOSQ_ERR_SUCCESS then (false, ps, tr)
  else (true, { mSubscriptionHandlers := tableInsert ps.mSubscriptionHandlers topic callback }, tr)

/-- MqttClient::getSubscriptionTable (src/mosquitto.cpp lines 147-151):
returns the static registry, independently of the instance. -/
def MqttClient.getSubscriptionTable {H : Type} (_st : MqttClient) (ps : ProcessState H) :
    SubscriptionTable H :=
  ps.mSubscriptionHandlers

/-- connectCallback (src/mosquitto.cpp lines 12-18): only (conditionally)
logs, with the log statement commented out; no state change. -/
def connectCallback {H : Type} (_resultCode : Int) (ps : ProcessState H) : ProcessState H :=
  ps

/-- publishCallback (src/mosquitto.cpp lines 20-24): only logs. -/
def publishCallback {H : Type} (ps : ProcessState H) : ProcessState H :=
  ps

/-- subscribeCallback (src/mosquitto.cpp lines 26-30): only logs. -/
def subscribeCallback {H : Type} (ps : ProcessState H) : ProcessState H :=
  ps

/-- messageCallback (src/mosquitto.cpp lines 32-45): reads the payload,
looks the arriving topic up in userdata->getSubscriptionTable(); if the
topic is absent or the registered handler is empty it returns without
invoking anything, otherwise it invokes the handler once with
(message->topic, payload).  Invocations are returned as a list of
(handler, topic, payload) triples; the registry is not modified. -/
def messageCallback {H : Type} (userdata : MqttClient) (ps : ProcessState H)
    (message : MosquittoMessage) : List (H × String × String) × ProcessState H :=
  let payload := message.payload
  let subscriptionTable := MqttClient.getSubscriptionTable userdata ps
  match tableFind subscriptionTable message.topic with
  | none => ([], ps)
  | some none => ([], ps)
  | some (some handler) => ([(handler, message.topic, payload)], ps)

/-- MqttClient::~MqttClient (src/mosquitto.cpp lines 77-81): disconnect
with the result discarded, then mosquitto_lib_cleanup.  mosquitto_destroy
is never called on the stored handle. -/
def MqttClient.destructor {H : Type} (st : MqttClient) (ps : ProcessState H)
    (discRc : ErrorCode) : ProcessState H × List EngineCall :=
  let d := MqttClient.disconnect st ps discRc
  (d.2.1, d.2.2 ++ [EngineCall.libCleanup])

/-- One facade-level operation together with the engine responses it will
observe, for reasoning about arbitrary operation sequences. -/
inductive FacadeOp (H : Type) where
  | connectOp (caFileExists : Bool) (tlsRc optsRc connRc loopRc : ErrorCode)
      (host : String) (port : Nat)
  | disconnectOp (rc : ErrorCode)
  | sendOp (rc : ErrorCode) (topic message : String)
  | subscribeOp (rc : ErrorCode) (topic : String) (callback : CallbackType H)
  | getTableOp
  | destructorOp (rc : ErrorCode)
  | connectHookOp (resultCode : Int)
  | publishHookOp
  | subscribeHookOp
  | messageHookOp (message : MosquittoMessage)

/-- The effect of one facade operation on the process-wide state, obtained
by running the corresponding facade function. -/
def stepOp {H : Type} (st : MqttClient) (ps : ProcessState H) : FacadeOp H → ProcessState H
  | .connectOp ca t o c l host port => (MqttClient.connect st ps ca t o c l host port).2.1
  | .disconnectOp rc => (MqttClient.disconnect st ps rc).2.1
  | .sendOp rc topic msg => (MqttClient.send st ps rc topic msg).2.1
  | .subscribeOp rc topic cb => (MqttClient.subscribe st ps rc topic cb).2.1
  | .getTableOp =>
      let _t := MqttClient.getSubscriptionTable st ps
      ps
  | .destructorOp rc => (MqttClient.destructor st ps rc).1
  | .connectHookOp rc => connectCallback rc ps
  | .publishHookOp => publishCallback ps
  | .subscribeHookOp => subscribeCallback ps
  | .messageHookOp m => (messageCallback st ps m).2

/-- Runs a sequence of facade operations from a process state. -/
def runOps {H : Type} (st : MqttClient) : ProcessState H → List (FacadeOp H) → ProcessState H
  | ps, [] => ps
  | ps, op :: rest => runOps st (stepOp st ps op) rest

/-- Whether an operation is a subscribe for which the engine reports
success. -/
def isSuccessfulSubscribe {H : Type} : FacadeOp H → Bool
  | .subscribeOp rc _ _ => rc == MOSQ_ERR_SUCCESS
  | _ => false

theorem tableFind_tableInsert_self {H : Type} (t : SubscriptionTable H) (k : String)
    (v : CallbackType H) : tableFind (tableInsert t k v) k = some v := by
  induction t with
  | nil => simp [tableInsert, tableFind]
  | cons hd tl ih =>
    obtain ⟨k1, v1⟩ := hd
    by_cases h : k1 = k
    · simp [tableInsert, tableFind, h]
    · simp [tableInsert, tableFind, h, ih]

theorem mem_registryTopics_tableInsert {H : Type} (t : SubscriptionTable H) (k T : String)
    (v : CallbackType H) :
    T ∈ registryTopics (tableInsert t k v) ↔ T = k ∨ T ∈ registryTopics t := by
  induction t with
  | nil => simp [tableInsert, registryTopics]
  | cons hd tl ih =>
    obtain ⟨k1, v1⟩ := hd
    by_cases h : k1 = k
    · subst h
      simp [tableInsert, registryTopics]
    · simp [tableInsert, registryTopics, h, ih]
      tauto

theorem nodup_registryTopics_tableInsert {H : Type} (t : SubscriptionTable H) (k : String)
    (v : CallbackType H) (hnd : (registryTopics t).Nodup) :
    (registryTopics (tableInsert t k v)).Nodup := by
  induction t with
  | nil => simp [tableInsert, registryTopics]
  | cons hd tl ih =>
    obtain ⟨k1, v1⟩ := hd
    simp [registryTopics] at hnd
    by_cases h : k1 = k
    · subst h
      simp [tableInsert, registryTopics, hnd.1, hnd.2]
    · simp [tableInsert, registryTopics, h]
      refine ⟨?_, ih hnd.2⟩
      rw [mem_registryTopics_tableInsert]
      push_neg
      exact ⟨h, hnd.1⟩

theorem connect_registry_frame {H : Type} (st : MqttClient) (ps : ProcessState H)
    (ca : Bool) (t o c l : ErrorCode) (host : String) (port : Nat) :
    (MqttClient.connect st ps ca t o c l host port).2.1 = ps := by
  simp only [MqttClient.connect]
  split_ifs <;> rfl

theorem disconnect_registry_frame {H : Type} (st : MqttClient) (ps : ProcessState H)
    (rc : ErrorCode) : (MqttClient.disconnect st ps rc).2.1 = ps := by
  simp only [MqttClient.disconnect]
  split_ifs <;> rfl

theorem send_registry_frame {H : Type} (st : MqttClient) (ps : ProcessState H)
    (rc : ErrorCode) (topic msg : String) :
    (MqttClient.send st ps rc topic msg).2.1 = ps := by
  simp only [MqttClient.send]
  split_ifs <;> rfl

theorem destructor_registry_frame {H : Type} (st : MqttClient) (ps : ProcessState H)
    (rc : ErrorCode) : (MqttClient.destructor st ps rc).1 = ps := by
  simp only [MqttClient.destructor]
  exact disconnect_registry_frame st ps rc

theorem messageCallback_registry_frame {H : Type} (st : MqttClient) (ps : ProcessState H)
    (m : MosquittoMessage) : (messageCallback st ps m).2 = ps := by
  simp only [messageCallback]
  split <;> rfl

/-- C1: after a successful subscribe(T, h) the message-arrival hook, on an
inbound message on topic T, invokes h exactly once with the message's
topic and verbatim payload; and on any inbound message whose topic is
absent from the registry or registered with an empty handler, the hook
invokes no handler (and, being a total function, cannot throw or crash). -/
theorem c1_message_dispatch (H : Type) (inst : MqttClient) (ps : ProcessState H)
    (T payload : String) (h : H) :
    ((MqttClient.subscribe inst ps MOSQ_ERR_SUCCESS T (some h)).1 = true
      ∧ (messageCallback inst (MqttClient.subscribe inst ps MOSQ_ERR_SUCCESS T (some h)).2.1
           ⟨T, payload⟩).1 = [(h, T, payload)])
    ∧ ∀ m : MosquittoMessage,
        (tableFind ps.mSubscriptionHandlers m.topic = none
          ∨ tableFind ps.mSubscriptionHandlers m.topic = some none) →
        (messageCallback inst ps m).1 = [] := by
  refine ⟨⟨?_, ?_⟩, ?_⟩
  · simp [MqttClient.subscribe, MOSQ_ERR_SUCCESS]
  · simp [MqttClient.subscribe, MOSQ_ERR_SUCCESS, messageCallback,
      MqttClient.getSubscriptionTable, tableFind_tableInsert_self]
  · intro m hm
    rcases hm with hm | hm <;>
      simp [messageCallback, MqttClient.getSubscriptionTable, hm]

theorem c1_message_dispatch_witness :
    (messageCallback (H := Nat) ⟨some ()⟩ ⟨[("x", some 5)]⟩ ⟨"y", "q"⟩).1 = [] :=
  (c1_message_dispatch Nat ⟨some ()⟩ ⟨[("x", some 5)]⟩ "t" "p" 7).2 ⟨"y", "q"⟩
    (Or.inl (by decide))

/-- C2: subscribe returns false and leaves the registry unchanged when the
engine reports a subscription error; on engine success it returns true and
stores the handler under the exact topic, overwriting any prior binding,
so the registry keeps at most one handler per topic and lookup finds the
most recently subscribed handler. -/
theorem c2_subscribe_registry (H : Type) (inst : MqttClient) (ps : ProcessState H)
    (rc : ErrorCode) (topic : String) (cb : CallbackType H) :
    (rc ≠ MOSQ_ERR_SUCCESS →
       MqttClient.subscribe inst ps rc topic cb
         = (false, ps, [EngineCall.subscribeReq (handleNull inst) topic kQoS]))
    ∧ (rc = MOSQ_ERR_SUCCESS →
       MqttClient.subscribe inst ps rc topic cb
         = (true, ⟨tableInsert ps.mSubscriptionHandlers topic cb⟩,
            [EngineCall.subscribeReq (handleNull inst) topic kQoS])
       ∧ tableFind (MqttClient.subscribe inst ps rc topic cb).2.1.mSubscriptionHandlers topic
           = some cb)
    ∧ ((registryTopics ps.mSubscriptionHandlers).Nodup →
       (registryTopics
          (MqttClient.subscribe inst ps rc topic cb).2.1.mSubscriptionHandlers).Nodup) := by
  refine ⟨?_, ?_, ?_⟩
  · intro hrc
    simp [MqttClient.subscribe, hrc]
  · intro hrc
    subst hrc
    refine ⟨?_, ?_⟩
    · simp [MqttClient.subscribe, MOSQ_ERR_SUCCESS]
    · simp [MqttClient.subscribe, MOSQ_ERR_SUCCESS, tableFind_tableInsert_self]
  · intro hnd
    by_cases hrc : rc = MOSQ_ERR_SUCCESS
    · subst hrc
      simp [MqttClient.subscribe, MOSQ_ERR_SUCCESS]
      exact nodup_registryTopics_tableInsert _ _ _ hnd
    · simp [MqttClient.subscribe, hrc]
      exact hnd

theorem c2_subscribe_registry_witness :
    MqttClient.subscribe (H := Nat) ⟨some ()⟩ ⟨[]⟩ 3 "t" (some 1)
      = (false, ⟨[]⟩, [EngineCall.subscribeReq false "t" kQoS]) :=
  (c2_subscribe_registry Nat ⟨some ()⟩ ⟨[]⟩ 3 "t" (some 1)).1 (by decide)

/-- C7: everything connect produces, in particular its return value, is
independent of whether the CA certificate file exists on disk: the
existence check in setupOptions never changes the result. -/
theorem c7_ca_existence_noninterference (H : Type) (inst : MqttClient) (ps : ProcessState H)
    (caExists caExists2 : Bool) (tlsRc optsRc connRc loopRc : ErrorCode)
    (host : String) (port : Nat) :
    MqttClient.connect inst ps caExists tlsRc optsRc connRc loopRc host port
      = MqttClient.connect inst ps caExists2 tlsRc optsRc connRc loopRc host port :=
  rfl

/-- C8: the registry is process-wide, not per-instance: after instance A
subscribes topic T with handler h successfully, any instance B sees the
binding through getSubscriptionTable, and an inbound message on T
delivered through B's message-arrival hook invokes h. -/
theorem c8_shared_registry (H : Type) (A B : MqttClient) (ps : ProcessState H)
    (T payload : String) (h : H) :
    (MqttClient.subscribe A ps MOSQ_ERR_SUCCESS T (some h)).1 = true
    ∧ tableFind (MqttClient.getSubscriptionTable B
         (MqttClient.subscribe A ps MOSQ_ERR_SUCCESS T (some h)).2.1) T = some (some h)
    ∧ (messageCallback B (MqttClient.subscribe A ps MOSQ_ERR_SUCCESS T (some h)).2.1
         ⟨T, payload⟩).1 = [(h, T, payload)] := by
  refine ⟨?_, ?_, ?_⟩ <;>
    simp [MqttClient.subscribe, MOSQ_ERR_SUCCESS, MqttClient.getSubscriptionTable,
      messageCallback, tableFind_tableInsert_self]

theorem stepOp_registry_mono {H : Type} (st : MqttClient) (ps : ProcessState H)
    (op : FacadeOp H) (T : String) (hT : T ∈ registryTopics ps.mSubscriptionHandlers) :
    T ∈ registryTopics (stepOp st ps op).mSubscriptionHandlers := by
  cases op with
  | connectOp ca t o c l host port =>
    simp only [stepOp]
    rw [connect_registry_frame]
    exact hT
  | disconnectOp rc =>
    simp only [stepOp]
    rw [disconnect_registry_frame]
    exact hT
  | sendOp rc topic msg =>
    simp only [stepOp]
    rw [send_registry_frame]
    exact hT
  | subscribeOp rc topic cb =>
    simp only [stepOp]
    by_cases hrc : rc = MOSQ_ERR_SUCCESS
    · simp [MqttClient.subscribe, hrc]
      exact (mem_registryTopics_tableInsert _ _ _ _).mpr (Or.inr hT)
    · simp [MqttClient.subscribe, hrc]
      exact hT
  | getTableOp =>
    simp only [stepOp]
    exact hT
  | destructorOp rc =>
    simp only [stepOp]
    rw [destructor_registry_frame]
    exact hT
  | connectHookOp rc =>
    simp only [stepOp, connectCallback]
    exact hT
  | publishHookOp =>
    simp only [stepOp, publishCallback]
    exact hT
  | subscribeHookOp =>
    simp only [stepOp, subscribeCallback]
    exact hT
  | messageHookOp m =>
    simp only [stepOp]
    rw [messageCallback_registry_frame]
    exact hT

theorem runOps_registry_mono {H : Type} (st : MqttClient) (ps : ProcessState H)
    (ops : List (FacadeOp H)) (T : String) (hT : T ∈ registryTopics ps.mSubscriptionHandlers) :
    T ∈ registryTopics (runOps st ps ops).mSubscriptionHandlers := by
  induction ops generalizing ps with
  | nil => exact hT
  | cons op rest ih =>
    simp only [runOps]
    exact ih _ (stepOp_registry_mono st ps op T hT)

theorem stepOp_frame {H : Type} (st : MqttClient) (ps : ProcessState H) (op : FacadeOp H)
    (hop : isSuccessfulSubscribe op = false) : stepOp st ps op = ps := by
  cases op with
  | connectOp ca t o c l host port => simp only [stepOp]; exact connect_registry_frame ..
  | disconnectOp rc => simp only [stepOp]; exact disconnect_registry_frame ..
  | sendOp rc topic msg => simp only [stepOp]; exact send_registry_frame ..
  | subscribeOp rc topic cb =>
    simp only [isSuccessfulSubscribe] at hop
    rw [beq_eq_false_iff_ne] at hop
    simp [stepOp, MqttClient.subscribe, hop]
  | getTableOp => simp only [stepOp]
  | destructorOp rc => simp only [stepOp]; exact destructor_registry_frame ..
  | connectHookOp rc => simp only [stepOp, connectCallback]
  | publishHookOp => simp only [stepOp, publishCallback]
  | subscribeHookOp => simp only [stepOp, subscribeCallback]
  | messageHookOp m => simp only [stepOp]; exact messageCallback_registry_frame ..

/-- C3: connect returns true iff the TLS option configuration (tls_set and
the protocol-version option), the asynchronous connect request and the
background-loop start all succeed, issued in that order; and if the TLS
option configuration step reports an error, connect returns false with no
connect request and no loop start attempted. -/
theorem c3_connect_steps (H : Type) (inst : MqttClient) (ps : ProcessState H)
    (ca : Bool) (tlsRc optsRc connRc loopRc : ErrorCode) (host : String) (port : Nat) :
    ((MqttClient.connect inst ps ca tlsRc optsRc connRc loopRc host port).1 = true
       ↔ tlsRc = MOSQ_ERR_SUCCESS ∧ optsRc = MOSQ_ERR_SUCCESS
         ∧ connRc = MOSQ_ERR_SUCCESS ∧ loopRc = MOSQ_ERR_SUCCESS)
    ∧ ((MqttClient.connect inst ps ca tlsRc optsRc connRc loopRc host port).1 = true →
        (MqttClient.connect inst ps ca tlsRc optsRc connRc loopRc host port).2.2
          = [EngineCall.tlsSet (handleNull inst) kCaCertificateFile kCertificatesFolder
               kClientCertificateFile kClientKeyFile,
             EngineCall.protocolVersionSet (handleNull inst) MQTT_PROTOCOL_V311,
             EngineCall.connectAsync (handleNull inst) host port kKeepaliveSec,
             EngineCall.loopStart (handleNull inst)])
    ∧ (¬ (tlsRc = MOSQ_ERR_SUCCESS ∧ optsRc = MOSQ_ERR_SUCCESS) →
        (MqttClient.connect inst ps ca tlsRc optsRc connRc loopRc host port).1 = false
        ∧ ∀ call ∈ (MqttClient.connect inst ps ca tlsRc optsRc connRc loopRc host port).2.2,
            isConnectAsync call = false ∧ isLoopStart call = false) := by
  by_cases h1 : tlsRc = MOSQ_ERR_SUCCESS <;>
  by_cases h2 : optsRc = MOSQ_ERR_SUCCESS <;>
  by_cases h3 : connRc = MOSQ_ERR_SUCCESS <;>
  by_cases h4 : loopRc = MOSQ_ERR_SUCCESS <;>
    simp [MqttClient.connect, setupOptions, h1, h2, h3, h4, isConnectAsync, isLoopStart]

theorem c3_connect_steps_witness :
    (MqttClient.connect (H := Nat) ⟨some ()⟩ ⟨[]⟩ true 1 0 0 0 "host" 1883).1 = false :=
  ((c3_connect_steps Nat ⟨some ()⟩ ⟨[]⟩ true 1 0 0 0 "host" 1883).2.2 (by decide)).1

/-- C4: send publishes the message as the topic's payload at the fixed
delivery-guarantee level QoS 1 ("at least once") with the retain flag set
and returns false iff the engine reports a publish error; subscribe
requests use the same fixed QoS 1; connect requests use the fixed
60-second keep-alive and the fixed protocol version MQTT 3.1.1. -/
theorem c4_fixed_parameters (H : Type) (inst : MqttClient) (ps : ProcessState H)
    (pubRc subRc : ErrorCode) (topic message : String) (cb : CallbackType H)
    (ca : Bool) (tlsRc optsRc connRc loopRc : ErrorCode) (host : String) (port : Nat) :
    ((MqttClient.send inst ps pubRc topic message).1 = false ↔ pubRc ≠ MOSQ_ERR_SUCCESS)
    ∧ (MqttClient.send inst ps pubRc topic message).2.2
        = [EngineCall.publishReq (handleNull inst) topic message.utf8ByteSize message 1 true]
    ∧ (MqttClient.subscribe inst ps subRc topic cb).2.2
        = [EngineCall.subscribeReq (handleNull inst) topic 1]
    ∧ (∀ b h2 p2 k, EngineCall.connectAsync b h2 p2 k
          ∈ (MqttClient.connect inst ps ca tlsRc optsRc connRc loopRc host port).2.2 → k = 60)
    ∧ (∀ b ver, EngineCall.protocolVersionSet b ver
          ∈ (MqttClient.connect inst ps ca tlsRc optsRc connRc loopRc host port).2.2
          → ver = MQTT_PROTOCOL_V311) := by
  refine ⟨?_, ?_, ?_, ?_, ?_⟩
  · by_cases h : pubRc = MOSQ_ERR_SUCCESS <;> simp [MqttClient.send, h]
  · by_cases h : pubRc = MOSQ_ERR_SUCCESS <;> simp [MqttClient.send, h, kQoS]
  · by_cases h : subRc = MOSQ_ERR_SUCCESS <;> simp [MqttClient.subscribe, h, kQoS]
  · intro b h2 p2 k hmem
    by_cases ht : tlsRc = MOSQ_ERR_SUCCESS <;> by_cases ho : optsRc = MOSQ_ERR_SUCCESS <;>
    by_cases hc : connRc = MOSQ_ERR_SUCCESS <;> by_cases hl : loopRc = MOSQ_ERR_SUCCESS <;>
      simp [MqttClient.connect, setupOptions, ht, ho, hc, hl, kKeepaliveSec] at hmem <;>
      tauto
  · intro b ver hmem
    by_cases ht : tlsRc = MOSQ_ERR_SUCCESS <;> by_cases ho : optsRc = MOSQ_ERR_SUCCESS <;>
    by_cases hc : connRc = MOSQ_ERR_SUCCESS <;> by_cases hl : loopRc = MOSQ_ERR_SUCCESS <;>
      simp [MqttClient.connect, setupOptions, ht, ho, hc, hl, MQTT_PROTOCOL_V311] at hmem <;>
      tauto

theorem c4_fixed_parameters_witness :
    (MqttClient.send (H := Nat) ⟨some ()⟩ ⟨[]⟩ 2 "t" "m").1 = false :=
  ((c4_fixed_parameters Nat ⟨some ()⟩ ⟨[]⟩ 2 0 "t" "m" (some 1) true 0 0 0 0 "h" 1).1).mpr
    (by decide)

/-- C5: construction fails, with an error whose message carries the
engine's diagnostic string, iff engine runtime initialization reports an
error; on initialization success, construction completes, creates a
client handle bound to deviceId with clean session disabled, registers
the four event hooks and stores the username and password on the handle. -/
theorem c5_construction (initRc : ErrorCode) (errStr : String) (handleCreated : Bool)
    (deviceId username password : String) :
    ((∃ e, (MqttClient.constructor initRc errStr handleCreated deviceId username password).1
        = Except.error e) ↔ initRc ≠ MOSQ_ERR_SUCCESS)
    ∧ (∀ e, (MqttClient.constructor initRc errStr handleCreated deviceId username password).1
        = Except.error e →
        e = "Error while initializing MOSQUITTO library: " ++ errStr)
    ∧ (initRc = MOSQ_ERR_SUCCESS →
        MqttClient.constructor initRc errStr handleCreated deviceId username password
          = (Except.ok ⟨if handleCreated then some () else none⟩,
             [EngineCall.libInit, EngineCall.newHandle deviceId false,
              EngineCall.connectCallbackSet (!handleCreated),
              EngineCall.publishCallbackSet (!handleCreated),
              EngineCall.subscribeCallbackSet (!handleCreated),
              EngineCall.messageCallbackSet (!handleCreated),
              EngineCall.usernamePwSet (!handleCreated) username password])) := by
  by_cases h : initRc = MOSQ_ERR_SUCCESS <;>
    simp [MqttClient.constructor, h]

theorem c5_construction_witness :
    MqttClient.constructor MOSQ_ERR_SUCCESS "diag" true "dev" "user" "pw"
      = (Except.ok ⟨some ()⟩,
         [EngineCall.libInit, EngineCall.newHandle "dev" false,
          EngineCall.connectCallbackSet false, EngineCall.publishCallbackSet false,
          EngineCall.subscribeCallbackSet false, EngineCall.messageCallbackSet false,
          EngineCall.usernamePwSet false "user" "pw"]) :=
  (c5_construction MOSQ_ERR_SUCCESS "diag" true "dev" "user" "pw").2.2 rfl

/-- C6: only subscribe with engine success modifies the subscription
registry: every other operation (connect, disconnect, send,
getSubscriptionTable, destruction and the four event hooks) leaves it
unchanged, and no operation removes an entry, so over any sequence of
operations the set of registered topics grows monotonically. -/
theorem c6_registry_frame_mono (H : Type) (st : MqttClient) (ps : ProcessState H)
    (ops : List (FacadeOp H)) :
    (∀ op : FacadeOp H, isSuccessfulSubscribe op = false → stepOp st ps op = ps)
    ∧ ∀ T ∈ registryTopics ps.mSubscriptionHandlers,
        T ∈ registryTopics (runOps st ps ops).mSubscriptionHandlers :=
  ⟨fun op hop => stepOp_frame st ps op hop,
   fun T hT => runOps_registry_mono st ps ops T hT⟩

theorem c6_registry_frame_mono_witness :
    stepOp (H := Nat) ⟨some ()⟩ ⟨[("a", some 2)]⟩ (FacadeOp.disconnectOp 1) = ⟨[("a", some 2)]⟩
    ∧ "a" ∈ registryTopics (runOps (H := Nat) ⟨some ()⟩ ⟨[("a", some 2)]⟩
        [FacadeOp.sendOp 0 "t" "m", FacadeOp.subscribeOp 0 "b" (some 7)]).mSubscriptionHandlers :=
  ⟨(c6_registry_frame_mono Nat ⟨some ()⟩ ⟨[("a", some 2)]⟩ []).1
     (FacadeOp.disconnectOp 1) (by decide),
   (c6_registry_frame_mono Nat ⟨some ()⟩ ⟨[("a", some 2)]⟩
     [FacadeOp.sendOp 0 "t" "m", FacadeOp.subscribeOp 0 "b" (some 7)]).2 "a" (by decide)⟩

/-- C9 counterexample: at a concrete constructed facade the destructor's
engine-request trace is exactly a disconnect request followed by the
library cleanup; it contains no handle-destruction request
(mosquitto_destroy), so the client handle is not destroyed at
destruction. -/
theorem c9_destructor_counterexample :
    (MqttClient.destructor (H := Nat) ⟨some ()⟩ ⟨[]⟩ MOSQ_ERR_SUCCESS).2
      = [EngineCall.disconnectReq false, EngineCall.libCleanup]
    ∧ EngineCall.handleDestroy false ∉
        (MqttClient.destructor (H := Nat) ⟨some ()⟩ ⟨[]⟩ MOSQ_ERR_SUCCESS).2
    ∧ EngineCall.handleDestroy true ∉
        (MqttClient.destructor (H := Nat) ⟨some ()⟩ ⟨[]⟩ MOSQ_ERR_SUCCESS).2 := by
  decide

/-- C9 amended: destruction, at any point after construction and whatever
the engine answers the disconnect with, first requests a disconnect with
the result discarded, then releases the process-wide engine runtime; it
issues no handle-destruction request (the handle is leaked rather than
destroyed) and leaves the registry untouched. -/
theorem c9_destructor_amended (H : Type) (inst : MqttClient) (ps : ProcessState H)
    (discRc : ErrorCode) :
    MqttClient.destructor inst ps discRc
      = (ps, [EngineCall.disconnectReq (handleNull inst), EngineCall.libCleanup])
    ∧ ∀ b : Bool, EngineCall.handleDestroy b ∉ (MqttClient.destructor inst ps discRc).2 := by
  have hd : MqttClient.destructor inst ps discRc
      = (ps, [EngineCall.disconnectReq (handleNull inst), EngineCall.libCleanup]) := by
    by_cases h : discRc = MOSQ_ERR_SUCCESS <;>
      simp [MqttClient.destructor, MqttClient.disconnect, h]
  refine ⟨hd, ?_⟩
  intro b
  rw [hd]
  simp

theorem c9_destructor_amended_witness :
    EngineCall.handleDestroy true ∉ (MqttClient.destructor (H := Nat) ⟨none⟩ ⟨[]⟩ 4).2 :=
  (c9_destructor_amended Nat ⟨none⟩ ⟨[]⟩ 4).2 true

/-- C10: nothing checks the result of handle creation: with runtime
initialization succeeding and mosquitto_new returning null, construction
still completes without error, storing the null handle, and every
subsequent operation (connect, disconnect, send, subscribe, destruction)
passes the null handle to the engine in each handle-taking request. -/
theorem c10_null_handle_propagation (errStr deviceId username password : String) (H : Type)
    (ps : ProcessState H) (ca : Bool) (tlsRc optsRc connRc loopRc discRc pubRc subRc : ErrorCode)
    (host : String) (port : Nat) (topic message : String) (cb : CallbackType H) :
    (MqttClient.constructor MOSQ_ERR_SUCCESS errStr false deviceId username password).1
      = Except.ok ⟨none⟩
    ∧ (∀ call ∈ (MqttClient.connect ⟨none⟩ ps ca tlsRc optsRc connRc loopRc host port).2.2,
         handleArg call ≠ some false)
    ∧ (∀ call ∈ (MqttClient.disconnect ⟨none⟩ ps discRc).2.2, handleArg call ≠ some false)
    ∧ (∀ call ∈ (MqttClient.send ⟨none⟩ ps pubRc topic message).2.2,
         handleArg call ≠ some false)
    ∧ (∀ call ∈ (MqttClient.subscribe ⟨none⟩ ps subRc topic cb).2.2,
         handleArg call ≠ some false)
    ∧ (∀ call ∈ (MqttClient.destructor ⟨none⟩ ps discRc).2, handleArg call ≠ some false) := by
  refine ⟨?_, ?_, ?_, ?_, ?_, ?_⟩
  · simp [MqttClient.constructor, MOSQ_ERR_SUCCESS]
  · by_cases h1 : tlsRc = MOSQ_ERR_SUCCESS <;> by_cases h2 : optsRc = MOSQ_ERR_SUCCESS <;>
    by_cases h3 : connRc = MOSQ_ERR_SUCCESS <;> by_cases h4 : loopRc = MOSQ_ERR_SUCCESS <;>
      simp [MqttClient.connect, setupOptions, h1, h2, h3, h4, handleNull, handleArg]
  · by_cases h : discRc = MOSQ_ERR_SUCCESS <;>
      simp [MqttClient.disconnect, h, handleNull, handleArg]
  · by_cases h : pubRc = MOSQ_ERR_SUCCESS <;>
      simp [MqttClient.send, h, handleNull, handleArg]
  · by_cases h : subRc = MOSQ_ERR_SUCCESS <;>
      simp [MqttClient.subscribe, h, handleNull, handleArg]
  · by_cases h : discRc = MOSQ_ERR_SUCCESS <;>
      simp [MqttClient.destructor, MqttClient.disconnect, h, handleNull, handleArg]

theorem c10_null_handle_propagation_witness :
    handleArg (EngineCall.disconnectReq true) ≠ some false :=
  (c10_null_handle_propagation "e" "d" "u" "p" Nat ⟨[]⟩ true 0 0 0 0 0 0 0 "h" 1 "t" "m"
    (some 1)).2.2.1 (EngineCall.disconnectReq true) (by decide)

end Mqtt
